import Mathlib

/-!
Verification of the streaming-client core of the market-data dashboard.

The development shallowly embeds the client code:
* the bounded state store and its mutation operations (useDashboardState.ts),
* the SSE message dispatch (useSSE handleMessage in useSSESingleton.ts),
* the singleton connection manager state machine (SSESingleton in
  useSSESingleton.ts and WebSocketSingleton in useWebSocketSingleton.ts),
* the staleness circuit breaker of the dashboard component
  (TradingDashboard staleness useEffect).

JS numbers are modelled by the rationals (all arithmetic the client performs
on them - comparisons with thresholds, doubling, division by 5 - is exact),
JS strings by String, absent record fields by Option.
-/

namespace MarketClient

/-- JS expression a || d at a site that reads an optional numeric field:
undefined and 0 are falsy, every other number is returned unchanged. -/
def jsNum (x : Option ℚ) (d : ℚ) : ℚ :=
  match x with
  | none => d
  | some v => if v = 0 then d else v

/-- JS expression s || d at a site that reads an optional string field:
undefined and the empty string are falsy. -/
def jsStr (x : Option String) (d : String) : String :=
  match x with
  | none => d
  | some s => if s = "" then d else s

/-- JS expression b || false at a site that reads an optional boolean field. -/
def jsBool (x : Option Bool) : Bool := x.getD false

/-- Rendering of a possibly-undefined number inside a template string:
undefined prints as the text undefined. -/
def jsNumText (x : Option ℚ) : String :=
  match x with
  | none => "undefined"
  | some v => toString v

/-- Rendering of a possibly-undefined string inside a template string. -/
def jsStrText (x : Option String) : String :=
  match x with
  | none => "undefined"
  | some s => s

/-! Data model of the bounded state store (useDashboardState.ts). -/

/-- OrderbookData of useDashboardState.ts.  The optional numeric fields are
set by initialState and by every orderbook update, so they are modelled as
plain values; timestamp is string or null. -/
structure OrderbookData where
  bids : List (String × String)
  asks : List (String × String)
  mid_price : ℚ
  spread : ℚ
  sequence_id : ℚ
  timestamp : Option String
  data_age_ms : ℚ
  is_stale : Bool
  processing_delay_ms : ℚ
deriving Repr, DecidableEq

/-- Metrics of useDashboardState.ts.  The SSE dispatcher additionally writes
total_events_received onto this record; it starts at 0 before the first
heartbeat. -/
structure Metrics where
  memory_usage_mb : ℚ
  queue_size : ℚ
  processing_delay_ms : ℚ
  server_status : String
  active_clients : ℚ
  current_scenario : String
  uptime_seconds : ℚ
  total_events_received : ℚ
deriving Repr, DecidableEq

/-- Incident of useDashboardState.ts. -/
structure Incident where
  timestamp : String
  type : String
  details : String
  scenario : String
  uptime : ℚ
deriving Repr, DecidableEq

/-- LogEntry of useDashboardState.ts; the Date timestamp is the ambient
clock value (epoch milliseconds) at the append. -/
structure LogEntry where
  timestamp : ℚ
  level : String
  message : String
deriving Repr, DecidableEq

/-- PerformanceHistory of useDashboardState.ts: five parallel series. -/
structure PerformanceHistory where
  timestamps : List ℚ
  memory : List ℚ
  queue : List ℚ
  processing_delay : List ℚ
  message_rate : List ℚ
deriving Repr, DecidableEq

/-- DashboardState of useDashboardState.ts. -/
structure DashboardState where
  orderbook_data : OrderbookData
  metrics : Metrics
  incidents : List Incident
  logs : List LogEntry
  performance_history : PerformanceHistory
deriving Repr, DecidableEq

/-- The full state owned by the useDashboardState hook: the store plus the
message counter and the arrival-timestamp list of the rate estimator. -/
structure HookState where
  state : DashboardState
  messageCount : Nat
  messageTimestamps : List ℚ
deriving Repr, DecidableEq

/-- generateSampleMetrics of sampleData.ts. -/
def generateSampleMetrics : Metrics :=
  { memory_usage_mb := 25.5
    queue_size := 150
    processing_delay_ms := 15.2
    server_status := "healthy"
    active_clients := 1
    current_scenario := "stable-mode"
    uptime_seconds := 3600
    total_events_received := 0 }

/-- initialState of useDashboardState.ts. -/
def initialState : DashboardState :=
  { orderbook_data :=
      { bids := [], asks := [], mid_price := 0, spread := 0, sequence_id := 0
        timestamp := none, data_age_ms := 0, is_stale := false
        processing_delay_ms := 0 }
    metrics := generateSampleMetrics
    incidents := []
    logs := []
    performance_history :=
      { timestamps := [], memory := [], queue := [], processing_delay := []
        message_rate := [] } }

/-- The hook state right after mounting: useState(initialState), useState(0),
useState([]). -/
def initialHook : HookState :=
  { state := initialState, messageCount := 0, messageTimestamps := [] }

/-- JS arr.slice(-n): the last n elements (the whole array when shorter). -/
def sliceFromEnd (n : Nat) (l : List α) : List α :=
  l.drop (l.length - n)

/-- addLog of useDashboardState.ts: append the entry to prev.logs.slice(-999),
keeping at most the last 1000 log entries. -/
def addLog (now : ℚ) (level message : String) (hs : HookState) : HookState :=
  { hs with state :=
      { hs.state with logs :=
          sliceFromEnd 999 hs.state.logs ++
            [{ timestamp := now, level := level, message := message }] } }

/-- addIncident of useDashboardState.ts: plain append. -/
def addIncident (i : Incident) (hs : HookState) : HookState :=
  { hs with state := { hs.state with incidents := hs.state.incidents ++ [i] } }

/-- A Partial OrderbookData: exactly the keys present in the update. -/
structure OrderbookPatch where
  bids : Option (List (String × String)) := none
  asks : Option (List (String × String)) := none
  mid_price : Option ℚ := none
  spread : Option ℚ := none
  sequence_id : Option ℚ := none
  timestamp : Option String := none
  data_age_ms : Option ℚ := none
  is_stale : Option Bool := none
  processing_delay_ms : Option ℚ := none
deriving Repr, DecidableEq

/-- The spread { ...prev.orderbook_data, ...orderbookData }: shallow
field-level overwrite of the keys present in the patch. -/
def mergeOrderbook (p : OrderbookPatch) (ob : OrderbookData) : OrderbookData :=
  { bids := p.bids.getD ob.bids
    asks := p.asks.getD ob.asks
    mid_price := p.mid_price.getD ob.mid_price
    spread := p.spread.getD ob.spread
    sequence_id := p.sequence_id.getD ob.sequence_id
    timestamp := match p.timestamp with
      | none => ob.timestamp
      | some t => some t
    data_age_ms := p.data_age_ms.getD ob.data_age_ms
    is_stale := p.is_stale.getD ob.is_stale
    processing_delay_ms := p.processing_delay_ms.getD ob.processing_delay_ms }

/-- updateOrderbook of useDashboardState.ts: bump the message counter, retain
only arrival timestamps from the last 10 seconds and append the current time,
then merge the patch onto the orderbook snapshot. -/
def updateOrderbook (now : ℚ) (p : OrderbookPatch) (hs : HookState) : HookState :=
  { state :=
      { hs.state with orderbook_data := mergeOrderbook p hs.state.orderbook_data }
    messageCount := hs.messageCount + 1
    messageTimestamps :=
      hs.messageTimestamps.filter (fun t => now - t < 10000) ++ [now] }

/-- A Partial Metrics: exactly the keys present in the update. -/
structure MetricsPatch where
  memory_usage_mb : Option ℚ := none
  queue_size : Option ℚ := none
  processing_delay_ms : Option ℚ := none
  server_status : Option String := none
  active_clients : Option ℚ := none
  current_scenario : Option String := none
  uptime_seconds : Option ℚ := none
  total_events_received : Option ℚ := none
deriving Repr, DecidableEq

/-- The spread { ...prev.metrics, ...metrics }. -/
def mergeMetrics (p : MetricsPatch) (m : Metrics) : Metrics :=
  { memory_usage_mb := p.memory_usage_mb.getD m.memory_usage_mb
    queue_size := p.queue_size.getD m.queue_size
    processing_delay_ms := p.processing_delay_ms.getD m.processing_delay_ms
    server_status := p.server_status.getD m.server_status
    active_clients := p.active_clients.getD m.active_clients
    current_scenario := p.current_scenario.getD m.current_scenario
    uptime_seconds := p.uptime_seconds.getD m.uptime_seconds
    total_events_received := p.total_events_received.getD m.total_events_received }

/-- updateMetrics of useDashboardState.ts. -/
def updateMetrics (p : MetricsPatch) (hs : HookState) : HookState :=
  { hs with state :=
      { hs.state with metrics := mergeMetrics p hs.state.metrics } }

/-- updatePerformanceHistory of useDashboardState.ts: append to all five
series in lock step, each truncated to its last 999 entries first; the
optional rate argument is read as messageRate || 0. -/
def updatePerformanceHistory (now memory queue delay : ℚ) (messageRate : Option ℚ)
    (hs : HookState) : HookState :=
  { hs with state :=
      { hs.state with performance_history :=
          { timestamps := sliceFromEnd 999 hs.state.performance_history.timestamps ++ [now]
            memory := sliceFromEnd 999 hs.state.performance_history.memory ++ [memory]
            queue := sliceFromEnd 999 hs.state.performance_history.queue ++ [queue]
            processing_delay :=
              sliceFromEnd 999 hs.state.performance_history.processing_delay ++ [delay]
            message_rate := sliceFromEnd 999 hs.state.performance_history.message_rate ++
              [jsNum messageRate 0] } } }

/-- getMessageRate of useDashboardState.ts: arrivals of the last 5 seconds
divided by 5. -/
def getMessageRate (now : ℚ) (hs : HookState) : ℚ :=
  ((hs.messageTimestamps.filter (fun t => now - t < 5000)).length : ℚ) / 5

/-! Message envelope and dispatch (useSSE handleMessage in useSSESingleton.ts). -/

/-- The data record of an envelope, restricted to the fields the dispatcher
reads; each JS unknown value is modelled at the type its read site casts it
to, and an absent field is none. -/
structure MsgData where
  message : Option String := none
  memory_usage_mb : Option ℚ := none
  queue_size : Option ℚ := none
  processing_delay_ms : Option ℚ := none
  server_status : Option String := none
  active_clients : Option ℚ := none
  current_scenario : Option String := none
  uptime_seconds : Option ℚ := none
  total_messages_received : Option ℚ := none
  bids : Option (List (String × String)) := none
  asks : Option (List (String × String)) := none
  mid_price : Option ℚ := none
  spread : Option ℚ := none
  sequence_id : Option ℚ := none
  timestamp : Option String := none
  data_age_ms : Option ℚ := none
  is_stale : Option Bool := none
  type : Option String := none
  details : Option String := none
  scenario : Option String := none
  uptime : Option ℚ := none
deriving Repr, DecidableEq

/-- SSEMessage of useSSESingleton.ts: the wire-level envelope. -/
structure SSEMessage where
  type : String
  data : MsgData
  timestamp : String
deriving Repr, DecidableEq

/-- useSSE handleMessage of useSSESingleton.ts: the dispatch switch on
message.type.  The ambient clock is passed as now (epoch milliseconds, for
Date.now() and the log-entry Date) and nowIso (the ISO string
new Date().toISOString() used as a timestamp default). -/
def handleMessage (now : ℚ) (nowIso : String) (message : SSEMessage)
    (hs : HookState) : HookState :=
  if message.type = "connection" then
    addLog now "INFO" ("Connected to server: " ++ jsStrText message.data.message) hs
  else if message.type = "heartbeat" then
    let hs1 := updateMetrics
      { memory_usage_mb := some (jsNum message.data.memory_usage_mb 0)
        queue_size := some (jsNum message.data.queue_size 0)
        processing_delay_ms := some (jsNum message.data.processing_delay_ms 0)
        server_status := some (jsStr message.data.server_status "unknown")
        active_clients := some (jsNum message.data.active_clients 0)
        current_scenario := some (jsStr message.data.current_scenario "unknown")
        uptime_seconds := some (jsNum message.data.uptime_seconds 0)
        total_events_received := some (jsNum message.data.total_messages_received 0) } hs
    updatePerformanceHistory now
      (jsNum message.data.memory_usage_mb 0)
      (jsNum message.data.queue_size 0)
      (jsNum message.data.processing_delay_ms 0)
      none hs1
  else if message.type = "orderbook_update" then
    let dataAge := jsNum message.data.data_age_ms 0
    let isStale := jsBool message.data.is_stale
    let hs1 :=
      if isStale ∧ dataAge > 1000 then
        addLog now "CRITICAL"
          ("Stale data detected: " ++ toString dataAge ++ "ms old (seq: " ++
            jsNumText message.data.sequence_id ++ ")") hs
      else if isStale then
        addLog now "WARNING"
          ("Data freshness degraded: " ++ toString dataAge ++ "ms lag") hs
      else hs
    updateOrderbook now
      { bids := some (message.data.bids.getD [])
        asks := some (message.data.asks.getD [])
        mid_price := some (jsNum message.data.mid_price 0)
        spread := some (jsNum message.data.spread 0)
        sequence_id := some (jsNum message.data.sequence_id 0)
        timestamp := some (jsStr message.data.timestamp nowIso)
        data_age_ms := some dataAge
        is_stale := some isStale
        processing_delay_ms := some (jsNum message.data.processing_delay_ms 0) } hs1
  else if message.type = "incident_alert" then
    let isStaleData := message.data.type = some "stale_data"
    let incidentDetails :=
      if isStaleData then
        "Data age: " ++ jsNumText message.data.data_age_ms ++
          "ms, Processing delay: " ++ jsNumText message.data.processing_delay_ms ++
          "ms, Queue: " ++ jsNumText message.data.queue_size
      else jsStr message.data.details "No details provided"
    let hs1 :=
      if isStaleData then
        addLog now "CRITICAL"
          ("STALE DATA ALERT: " ++ jsNumText message.data.data_age_ms ++
            "ms lag on sequence " ++ jsNumText message.data.sequence_id) hs
      else
        addLog now "INCIDENT"
          ("Incident: " ++ jsStrText message.data.type ++ " - " ++ incidentDetails) hs
    addIncident
      { timestamp := jsStr message.data.timestamp nowIso
        type := jsStr message.data.type "Unknown"
        details := incidentDetails
        scenario := jsStr message.data.scenario "unknown"
        uptime := jsNum message.data.uptime (jsNum message.data.uptime_seconds 0) } hs1
  else if message.type = "keepalive" then
    hs
  else
    hs

/-- A raw unit arriving on the transport: either a frame that JSON.parse
accepts as an envelope, or malformed text on which JSON.parse throws. -/
inductive RawPayload
  | wellFormed (msg : SSEMessage)
  | malformed (text : String)
deriving Repr, DecidableEq

/-- JSON.parse at the onmessage site, as observed through the surrounding
try block: a well-formed frame yields its envelope, a malformed one throws,
modelled as none. -/
def parsePayload : RawPayload → Option SSEMessage
  | .wellFormed m => some m
  | .malformed _ => none

/-! Singleton connection manager (SSESingleton in useSSESingleton.ts and
WebSocketSingleton in useWebSocketSingleton.ts; both carry the same
reconnection state machine with maxReconnectAttempts 5 and baseDelay 2000). -/

/-- The transport slot of the singleton: null, a connecting instance, or an
open instance (readyState OPEN). -/
inductive TransportState
  | noTransport
  | connecting
  | openConn
deriving Repr, DecidableEq

/-- The mutable fields of the singleton that drive the reconnection state
machine. -/
structure ManagerState where
  transport : TransportState
  isConnecting : Bool
  reconnectTimeout : Option ℚ
  reconnectAttempts : Nat
deriving Repr, DecidableEq

def maxReconnectAttempts : Nat := 5

def baseDelay : ℚ := 2000

/-- The observable effects of one handler run: the successor state, the
delay of a setTimeout scheduled by it, the argument of a notifyError call,
the argument of a notifyConnectionChange call, and whether a new transport
instance was constructed. -/
structure StepOut where
  st : ManagerState
  scheduledDelay : Option ℚ := none
  errorNotified : Option String := none
  connectionNotified : Option Bool := none
  attemptStarted : Bool := false
deriving Repr, DecidableEq

/-- connect() of SSESingleton: skip while already connecting or open; refuse
with a notifyError once the attempt ceiling is reached; otherwise clean up
(clearing any pending reconnect timer and closing any previous transport)
and construct a fresh transport, which starts in the connecting state. -/
def connect (s : ManagerState) : StepOut :=
  if s.isConnecting then { st := s }
  else if s.transport = .openConn then { st := s }
  else if maxReconnectAttempts ≤ s.reconnectAttempts then
    { st := s, errorNotified := some "Max reconnection attempts reached" }
  else
    { st := { transport := .connecting, isConnecting := true
              reconnectTimeout := none
              reconnectAttempts := s.reconnectAttempts }
      attemptStarted := true }

/-- onopen of SSESingleton.connect: reset the attempt counter and notify all
connection subscribers of the open state. -/
def onOpen (s : ManagerState) : StepOut :=
  { st := { s with
      transport := .openConn
      isConnecting := false
      reconnectAttempts := 0 }
    connectionNotified := some true }

/-- eventSource.onerror of SSESingleton.connect: drop the transport, notify
disconnection, and when fewer than maxReconnectAttempts attempts were made,
schedule a reconnect after baseDelay * 2 ^ attempts and increment the
counter; otherwise notify the terminal error. -/
def sseOnError (s : ManagerState) : StepOut :=
  let s1 : ManagerState := { s with isConnecting := false, transport := .noTransport }
  if s1.reconnectAttempts < maxReconnectAttempts then
    { st := { s1 with
        reconnectTimeout := some (baseDelay * 2 ^ s1.reconnectAttempts)
        reconnectAttempts := s1.reconnectAttempts + 1 }
      scheduledDelay := some (baseDelay * 2 ^ s1.reconnectAttempts)
      connectionNotified := some false }
  else
    { st := s1
      errorNotified := some "SSE connection failed - max attempts reached"
      connectionNotified := some false }

/-- ws.onclose of WebSocketSingleton.connect: codes 1000 and 1001 are the
caller-requested closures; any other code is unexpected and triggers the
same backoff schedule as the SSE error handler. -/
def wsOnClose (code : Nat) (s : ManagerState) : StepOut :=
  let s1 : ManagerState := { s with isConnecting := false, transport := .noTransport }
  if code ≠ 1000 ∧ code ≠ 1001 ∧ s1.reconnectAttempts < maxReconnectAttempts then
    { st := { s1 with
        reconnectTimeout := some (baseDelay * 2 ^ s1.reconnectAttempts)
        reconnectAttempts := s1.reconnectAttempts + 1 }
      scheduledDelay := some (baseDelay * 2 ^ s1.reconnectAttempts)
      connectionNotified := some false }
  else if code = 1000 ∨ code = 1001 then
    { st := { s1 with reconnectAttempts := 0 }, connectionNotified := some false }
  else
    { st := s1
      errorNotified := some "Connection failed - max attempts reached"
      connectionNotified := some false }

/-- disconnect() of the singleton: cleanup (clear the pending timer, close
and null the transport), reset the attempt counter, notify disconnection. -/
def disconnect (s : ManagerState) : StepOut :=
  { st := { transport := .noTransport, isConnecting := s.isConnecting
            reconnectTimeout := none, reconnectAttempts := 0 }
    connectionNotified := some false }

/-- A registered subscriber callback; throws records whether invoking the
callback raises an exception. -/
structure Subscriber where
  id : Nat
  throws : Bool
deriving Repr, DecidableEq

/-- The notify loop of the singleton (notifyMessage, notifyConnectionChange,
notifyError share it): iterate over the registered callbacks in registration
order, invoking each inside its own try block.  Returns the invocation
sequence, each with the delivered payload, and the ids whose callbacks threw
and were caught. -/
def notifyAll (payload : α) : List Subscriber → List (Nat × α) × List Nat
  | [] => ([], [])
  | c :: rest =>
      let r := notifyAll payload rest
      ((c.id, payload) :: r.1, if c.throws then c.id :: r.2 else r.2)

/-- eventSource.onmessage combined with the useSSE consumer: parse the raw
frame inside a try block; on success dispatch the envelope through
handleMessage, on failure the catch only writes to the console, so the
manager and the hook state are untouched and the handler returns normally. -/
def onMessageStep (now : ℚ) (nowIso : String) (raw : RawPayload)
    (mgr : ManagerState) (hs : HookState) : ManagerState × HookState :=
  match parsePayload raw with
  | some m => (mgr, handleMessage now nowIso m hs)
  | none => (mgr, hs)

/-! Staleness circuit breaker (TradingDashboard staleness useEffect and
handlePlayToggle in the dashboard component). -/

/-- The component state of TradingDashboard that the staleness detector
reads and writes.  stalenessDisconnectInfo keeps the dataAge recorded at the
trip (its ISO timestamp is omitted from the model). -/
structure UIState where
  isResetting : Bool
  isDisconnectedDueToStaleness : Bool
  stalenessDisconnectInfo : Option ℚ
  stalenessAlertCount : Nat
deriving Repr, DecidableEq

/-- The composed system the circuit-breaker claims range over: the hook
state fed by the dispatcher, the dashboard component state, and the SSE
singleton.  disconnectCalls counts the disconnect() invocations made by the
staleness effect, tripRecords lists the data ages it recorded (one entry per
setStalenessDisconnectInfo assignment). -/
structure Sys where
  hook : HookState
  ui : UIState
  manager : ManagerState
  disconnectCalls : Nat
  tripRecords : List ℚ
deriving Repr, DecidableEq

/-- The staleness useEffect of TradingDashboard: skipped while resetting;
otherwise, when the snapshot is stale with data age above 300 ms and the
latch is not yet set, it records the disconnect info, sets the latch and the
alert count, and forces SSESingleton.disconnect(); in every other case it
does nothing.  The latch makes the trip edge-triggered. -/
def stalenessEffect (sys : Sys) : Sys :=
  if sys.ui.isResetting then sys
  else if sys.hook.state.orderbook_data.is_stale ∧
      sys.hook.state.orderbook_data.data_age_ms > 300 ∧
      ¬ sys.ui.isDisconnectedDueToStaleness then
    { sys with
      ui := { sys.ui with
        isDisconnectedDueToStaleness := true
        stalenessDisconnectInfo := some sys.hook.state.orderbook_data.data_age_ms
        stalenessAlertCount := 1 }
      manager := (disconnect sys.manager).st
      disconnectCalls := sys.disconnectCalls + 1
      tripRecords := sys.tripRecords ++ [sys.hook.state.orderbook_data.data_age_ms] }
  else sys

/-- One envelope arriving at the subscribed dashboard: the dispatcher
mutates the store, then the staleness effect is evaluated on the new
snapshot (store mutation precedes detector evaluation). -/
def processEnvelope (now : ℚ) (nowIso : String) (m : SSEMessage) (sys : Sys) : Sys :=
  stalenessEffect { sys with hook := handleMessage now nowIso m sys.hook }

/-- An envelope together with the clock values at its arrival. -/
structure TimedMsg where
  now : ℚ
  nowIso : String
  msg : SSEMessage
deriving Repr, DecidableEq

/-- A whole stream of envelopes processed in arrival order. -/
def processStream (es : List TimedMsg) (sys : Sys) : Sys :=
  es.foldl (fun s e => processEnvelope e.now e.nowIso e.msg s) sys

/-- An orderbook_update envelope that trips the breaker: after dispatch the
snapshot carries is_stale true and a data age above the 300 ms critical
threshold. -/
def tripWorthy (m : SSEMessage) : Bool :=
  m.type = "orderbook_update" ∧ jsBool m.data.is_stale ∧ jsNum m.data.data_age_ms 0 > 300

/-- The explicit external reset of the breaker: the start branch of
handlePlayToggle resets the dashboard store to its initial values, clears
the latch, the disconnect info and the alert count, and cycles the SSE
singleton through disconnect(); its transient isResetting guard is cleared
again at the end of the sequence.  The disconnect() issued here is a user
action, not a detector trip, so disconnectCalls is not counted up. -/
def externalReset (sys : Sys) : Sys :=
  { hook := initialHook
    ui := { isResetting := false, isDisconnectedDueToStaleness := false
            stalenessDisconnectInfo := none, stalenessAlertCount := 0 }
    manager := (disconnect sys.manager).st
    disconnectCalls := sys.disconnectCalls
    tripRecords := sys.tripRecords }

/-! Auxiliary definitions for the statements: append operations on the ring
buffers, and concrete fixtures used by witnesses and counterexamples. -/

/-- One append operation on the ring-buffered collections of the store. -/
inductive StoreOp
  | log (now : ℚ) (level message : String)
  | perf (now memory queue delay : ℚ) (rate : Option ℚ)
deriving Repr, DecidableEq

/-- Apply one append operation to the hook state. -/
def applyOp (hs : HookState) : StoreOp → HookState
  | .log now level message => addLog now level message hs
  | .perf now memory queue delay rate =>
      updatePerformanceHistory now memory queue delay rate hs

/-- All six ring-buffered lists hold at most 1000 entries. -/
def Bounded1000 (hs : HookState) : Prop :=
  hs.state.logs.length ≤ 1000 ∧
  hs.state.performance_history.timestamps.length ≤ 1000 ∧
  hs.state.performance_history.memory.length ≤ 1000 ∧
  hs.state.performance_history.queue.length ≤ 1000 ∧
  hs.state.performance_history.processing_delay.length ≤ 1000 ∧
  hs.state.performance_history.message_rate.length ≤ 1000

instance (hs : HookState) : Decidable (Bounded1000 hs) := by
  unfold Bounded1000; infer_instance

/-- A heartbeat envelope whose data carries only memory_usage_mb = 42. -/
def heartbeatMemOnly : SSEMessage :=
  { type := "heartbeat", data := { memory_usage_mb := some 42 }, timestamp := "t" }

/-- An orderbook_update envelope carrying only a sequence id. -/
def obUpdate (seq : ℚ) : SSEMessage :=
  { type := "orderbook_update", data := { sequence_id := some seq }, timestamp := "t" }

/-- An orderbook_update envelope with freshness fields. -/
def staleUpdate (seq age : ℚ) (stale : Bool) : SSEMessage :=
  { type := "orderbook_update"
    data := { sequence_id := some seq, data_age_ms := some age, is_stale := some stale }
    timestamp := "t" }

/-- A keepalive envelope. -/
def keepaliveMsg : SSEMessage :=
  { type := "keepalive", data := {}, timestamp := "t" }

/-- A manager whose reconnection-attempt ceiling is exhausted. -/
def exhaustedManager : ManagerState :=
  { transport := .noTransport, isConnecting := false
    reconnectTimeout := none, reconnectAttempts := 5 }

/-- A disconnected manager that has already made three attempts. -/
def retryingManager : ManagerState :=
  { transport := .noTransport, isConnecting := false
    reconnectTimeout := none, reconnectAttempts := 3 }

/-- A manager holding an open transport. -/
def openManager : ManagerState :=
  { transport := .openConn, isConnecting := false
    reconnectTimeout := none, reconnectAttempts := 0 }

/-- Ten arrival timestamps spread uniformly over the 5 seconds before
time 5000. -/
def tenUniform : HookState :=
  { initialHook with
      messageTimestamps := [250, 750, 1250, 1750, 2250, 2750, 3250, 3750, 4250, 4750] }

/-- A hook state whose logs buffer and performance-history series all hold
exactly 1000 entries. -/
def fullHook : HookState :=
  { state :=
      { initialState with
          logs := List.replicate 1000 { timestamp := 0, level := "INFO", message := "x" }
          performance_history :=
            { timestamps := List.replicate 1000 0
              memory := List.replicate 1000 0
              queue := List.replicate 1000 0
              processing_delay := List.replicate 1000 0
              message_rate := List.replicate 1000 0 } }
    messageCount := 0
    messageTimestamps := [] }

/-- Two registered error subscribers, the second of which throws. -/
def twoErrSubs : List Subscriber := [{ id := 1, throws := false }, { id := 2, throws := true }]

/-- The freshly mounted, armed dashboard system with an open connection. -/
def armedSys : Sys :=
  { hook := initialHook
    ui := { isResetting := false, isDisconnectedDueToStaleness := false
            stalenessDisconnectInfo := none, stalenessAlertCount := 0 }
    manager := openManager
    disconnectCalls := 0
    tripRecords := [] }

/-- Two consecutive stale orderbook updates with data age 1200 ms. -/
def staleTwice : List TimedMsg :=
  [{ now := 0, nowIso := "i", msg := staleUpdate 1 1200 true },
   { now := 1, nowIso := "i", msg := staleUpdate 2 1200 true }]

/-- One further stale orderbook update, fed after the trip. -/
def staleAgain : List TimedMsg :=
  [{ now := 2, nowIso := "i", msg := staleUpdate 3 1200 true }]

/-! Helper lemmas shared by the claim theorems. -/

theorem appendRing_length (l : List α) (x : α) :
    (sliceFromEnd 999 l ++ [x]).length = min (l.length + 1) 1000 := by
  simp [sliceFromEnd]
  omega

theorem sliceFromEnd_full (l : List α) (h : l.length = 1000) :
    sliceFromEnd 999 l = l.tail := by
  simp [sliceFromEnd, h, List.drop_one]

theorem applyOp_bounded (hs : HookState) (op : StoreOp)
    (h : Bounded1000 hs) : Bounded1000 (applyOp hs op) := by
  obtain ⟨h1, h2, h3, h4, h5, h6⟩ := h
  cases op <;>
    simp [applyOp, addLog, updatePerformanceHistory, Bounded1000, sliceFromEnd,
      h1, h2, h3, h4, h5, h6] <;>
    omega

theorem foldl_applyOp_bounded (ops : List StoreOp) (hs : HookState)
    (h : Bounded1000 hs) : Bounded1000 (ops.foldl applyOp hs) := by
  induction ops generalizing hs with
  | nil => simpa using h
  | cons op ops ih => exact ih _ (applyOp_bounded hs op h)

theorem hb_ne_conn : ("heartbeat" : String) ≠ "connection" := by decide

theorem ob_ne_conn : ("orderbook_update" : String) ≠ "connection" := by decide

theorem ob_ne_hb : ("orderbook_update" : String) ≠ "heartbeat" := by decide

theorem ia_ne_conn : ("incident_alert" : String) ≠ "connection" := by decide

theorem ia_ne_hb : ("incident_alert" : String) ≠ "heartbeat" := by decide

theorem ia_ne_ob : ("incident_alert" : String) ≠ "orderbook_update" := by decide

theorem ka_ne_conn : ("keepalive" : String) ≠ "connection" := by decide

theorem ka_ne_hb : ("keepalive" : String) ≠ "heartbeat" := by decide

theorem ka_ne_ob : ("keepalive" : String) ≠ "orderbook_update" := by decide

theorem ka_ne_ia : ("keepalive" : String) ≠ "incident_alert" := by decide

theorem notifyAll_spec (payload : α) (subs : List Subscriber) :
    (notifyAll payload subs).1 = subs.map (fun c => (c.id, payload)) ∧
    (notifyAll payload subs).2 = (subs.filter (fun c => c.throws)).map (fun c => c.id) := by
  induction subs with
  | nil => simp [notifyAll]
  | cons c rest ih =>
      by_cases h : c.throws <;>
        simp [notifyAll, h, ih.1, ih.2, List.filter_cons]

/-! Claim theorems. -/

/-- C5: for every sequence of append operations the logs buffer and each
performance-history series never exceed 1000 entries, and an append to a
buffer already holding 1000 entries evicts exactly the single oldest entry
while preserving the order of the rest (the tail survives unchanged, the new
entry goes to the back). -/
theorem ring_buffers_bounded (hs : HookState) (ops : List StoreOp)
    (now memory queue delay : ℚ) (rate : Option ℚ) (level message : String)
    (h : Bounded1000 hs) :
    Bounded1000 (ops.foldl applyOp hs) ∧
    (hs.state.logs.length = 1000 →
      (addLog now level message hs).state.logs =
        hs.state.logs.tail ++ [{ timestamp := now, level := level, message := message }]) ∧
    (hs.state.performance_history.timestamps.length = 1000 →
      (updatePerformanceHistory now memory queue delay rate
          hs).state.performance_history.timestamps =
        hs.state.performance_history.timestamps.tail ++ [now]) ∧
    (hs.state.performance_history.memory.length = 1000 →
      (updatePerformanceHistory now memory queue delay rate
          hs).state.performance_history.memory =
        hs.state.performance_history.memory.tail ++ [memory]) ∧
    (hs.state.performance_history.queue.length = 1000 →
      (updatePerformanceHistory now memory queue delay rate
          hs).state.performance_history.queue =
        hs.state.performance_history.queue.tail ++ [queue]) ∧
    (hs.state.performance_history.processing_delay.length = 1000 →
      (updatePerformanceHistory now memory queue delay rate
          hs).state.performance_history.processing_delay =
        hs.state.performance_history.processing_delay.tail ++ [delay]) ∧
    (hs.state.performance_history.message_rate.length = 1000 →
      (updatePerformanceHistory now memory queue delay rate
          hs).state.performance_history.message_rate =
        hs.state.performance_history.message_rate.tail ++ [jsNum rate 0]) := by
  refine ⟨foldl_applyOp_bounded ops hs h, ?_, ?_, ?_, ?_, ?_, ?_⟩ <;> intro hlen
  · simp [addLog, sliceFromEnd_full _ hlen]
  all_goals simp [updatePerformanceHistory, sliceFromEnd_full _ hlen]

set_option maxRecDepth 10000 in
/-- C5 witness: a full buffer evicts exactly its oldest entry, and one more
append keeps everything within bounds. -/
theorem ring_buffers_bounded_witness :
    Bounded1000 ([StoreOp.log 7 "INFO" "b"].foldl applyOp fullHook) ∧
    (fullHook.state.logs.length = 1000 →
      (addLog 7 "INFO" "b" fullHook).state.logs =
        fullHook.state.logs.tail ++ [{ timestamp := 7, level := "INFO", message := "b" }]) ∧
    (fullHook.state.performance_history.timestamps.length = 1000 →
      (updatePerformanceHistory 7 1 2 3 none fullHook).state.performance_history.timestamps =
        fullHook.state.performance_history.timestamps.tail ++ [7]) ∧
    (fullHook.state.performance_history.memory.length = 1000 →
      (updatePerformanceHistory 7 1 2 3 none fullHook).state.performance_history.memory =
        fullHook.state.performance_history.memory.tail ++ [1]) ∧
    (fullHook.state.performance_history.queue.length = 1000 →
      (updatePerformanceHistory 7 1 2 3 none fullHook).state.performance_history.queue =
        fullHook.state.performance_history.queue.tail ++ [2]) ∧
    (fullHook.state.performance_history.processing_delay.length = 1000 →
      (updatePerformanceHistory 7 1 2 3
          none fullHook).state.performance_history.processing_delay =
        fullHook.state.performance_history.processing_delay.tail ++ [3]) ∧
    (fullHook.state.performance_history.message_rate.length = 1000 →
      (updatePerformanceHistory 7 1 2 3 none fullHook).state.performance_history.message_rate =
        fullHook.state.performance_history.message_rate.tail ++ [jsNum none 0]) :=
  ring_buffers_bounded fullHook [StoreOp.log 7 "INFO" "b"] 7 1 2 3 none "INFO" "b"
    (by simp [Bounded1000, fullHook, initialState])

/-- C7: the notify loop of the singleton delivers every envelope to each
registered subscriber exactly once, in registration-iteration order, and a
throwing subscriber callback is caught (its id is recorded among the caught
errors) without preventing delivery to all remaining subscribers. -/
theorem fanout_exactly_once (m : SSEMessage) (subs : List Subscriber) :
    (notifyAll m subs).1 = subs.map (fun c => (c.id, m)) ∧
    (notifyAll m subs).2 = (subs.filter (fun c => c.throws)).map (fun c => c.id) :=
  notifyAll_spec m subs

/-- C9: the rate estimator returns the number of arrivals inside the
trailing 5-second window divided by the window length 5; ten in-window
arrivals yield 2 and zero in-window arrivals yield 0. -/
theorem rate_estimator_correct (now : ℚ) (hs : HookState) :
    getMessageRate now hs =
      ((hs.messageTimestamps.filter (fun t => now - t < 5000)).length : ℚ) / 5 ∧
    ((hs.messageTimestamps.filter (fun t => now - t < 5000)).length = 10 →
      getMessageRate now hs = 2) ∧
    ((hs.messageTimestamps.filter (fun t => now - t < 5000)).length = 0 →
      getMessageRate now hs = 0) := by
  refine ⟨rfl, ?_, ?_⟩ <;> intro h <;> rw [getMessageRate, h] <;> norm_num

/-- C9 witness: ten arrivals spread uniformly over the 5 seconds before the
query give rate 2; the empty arrival list gives rate 0. -/
theorem rate_estimator_correct_witness :
    getMessageRate 5000 tenUniform = 2 ∧ getMessageRate 0 initialHook = 0 :=
  ⟨(rate_estimator_correct 5000 tenUniform).2.1
      (by norm_num [tenUniform, initialHook, List.filter_cons, List.filter_nil]),
   (rate_estimator_correct 0 initialHook).2.2 (by simp [initialHook, initialState])⟩

/-- C2: on an unexpected close (any code other than 1000 and 1001) the
reconnection delay scheduled for attempt k (0-indexed) equals
baseDelay * 2 ^ k, the attempt counter is incremented per attempt up to the
ceiling maxReconnectAttempts = 5, and once the ceiling is reached no further
automatic reconnection is scheduled; the SSE error handler implements the
same schedule. -/
theorem reconnect_backoff (code k : Nat) (s : ManagerState)
    (hcode : code ≠ 1000 ∧ code ≠ 1001) (hk : s.reconnectAttempts = k) :
    maxReconnectAttempts = 5 ∧
    (k < maxReconnectAttempts →
      (wsOnClose code s).scheduledDelay = some (baseDelay * 2 ^ k) ∧
      (wsOnClose code s).st.reconnectAttempts = k + 1 ∧
      (sseOnError s).scheduledDelay = some (baseDelay * 2 ^ k) ∧
      (sseOnError s).st.reconnectAttempts = k + 1) ∧
    (maxReconnectAttempts ≤ k →
      (wsOnClose code s).scheduledDelay = none ∧
      (sseOnError s).scheduledDelay = none ∧
      (wsOnClose code s).st.reconnectAttempts = k ∧
      (sseOnError s).st.reconnectAttempts = k) := by
  refine ⟨rfl, ?_, ?_⟩ <;> intro h
  · simp [wsOnClose, sseOnError, hk, hcode.1, hcode.2, h]
  · have h2 : ¬ (k < maxReconnectAttempts) := Nat.not_lt.mpr h
    simp [wsOnClose, sseOnError, hk, hcode.1, hcode.2, h2]

/-- C2 witness: unexpected close code 1006 at attempt counter 3 schedules a
16000 ms delay (2000 * 2 ^ 3) and moves the counter to 4. -/
theorem reconnect_backoff_witness :
    (wsOnClose 1006 retryingManager).scheduledDelay = some 16000 ∧
    (wsOnClose 1006 retryingManager).st.reconnectAttempts = 4 ∧
    (sseOnError retryingManager).scheduledDelay = some 16000 := by
  have h := (reconnect_backoff 1006 3 retryingManager (by decide) rfl).2.1 (by decide)
  refine ⟨?_, h.2.1, ?_⟩
  · rw [h.1]; norm_num [baseDelay]
  · rw [h.2.2.1]; norm_num [baseDelay]

/-- C3 counterexample: with the attempt ceiling exhausted, an explicit
connect() call does not reset the reconnection state and starts no
connection attempt - the manager state comes back unchanged and a repeated
connect() still attempts nothing - contrary to the claim that connect()
resets the state so that attempts can resume. -/
theorem ceiling_connect_counterexample :
    (connect exhaustedManager).st = exhaustedManager ∧
    (connect exhaustedManager).attemptStarted = false ∧
    (connect exhaustedManager).errorNotified = some "Max reconnection attempts reached" ∧
    (connect (connect exhaustedManager).st).attemptStarted = false := by
  refine ⟨rfl, rfl, rfl, rfl⟩

/-- C3 (amended): after the reconnection-attempt ceiling is exhausted the
manager is terminal - the error handler schedules nothing further and
notifies every error subscriber with the terminal message - and an explicit
connect() call does NOT reset this state: it only repeats the terminal
notifyError and leaves the state untouched.  The state is reset by an
explicit disconnect(), which zeroes the attempt counter, after which
connect() starts attempts again. -/
theorem ceiling_terminal_until_disconnect (s : ManagerState) (errSubs : List Subscriber)
    (hmax : maxReconnectAttempts ≤ s.reconnectAttempts)
    (hnc : s.isConnecting = false)
    (hnt : s.transport ≠ .openConn) :
    (sseOnError s).scheduledDelay = none ∧
    (sseOnError s).errorNotified = some "SSE connection failed - max attempts reached" ∧
    (notifyAll "SSE connection failed - max attempts reached" errSubs).1 =
      errSubs.map (fun c => (c.id, "SSE connection failed - max attempts reached")) ∧
    (connect s).st = s ∧
    (connect s).attemptStarted = false ∧
    (connect s).errorNotified = some "Max reconnection attempts reached" ∧
    (disconnect s).st.reconnectAttempts = 0 ∧
    (connect (disconnect s).st).attemptStarted = true := by
  have hmax5 : 5 ≤ s.reconnectAttempts := by simpa [maxReconnectAttempts] using hmax
  have hlt : ¬ s.reconnectAttempts < 5 := Nat.not_lt.mpr hmax5
  refine ⟨?_, ?_, (notifyAll_spec _ _).1, ?_, ?_, ?_, rfl, ?_⟩ <;>
    simp [connect, sseOnError, disconnect, hnc, hnt, hmax5, hlt, maxReconnectAttempts]

/-- C3 witness: the exhausted manager with two error subscribers, one of
them throwing. -/
theorem ceiling_terminal_witness :
    (sseOnError exhaustedManager).scheduledDelay = none ∧
    (sseOnError exhaustedManager).errorNotified =
      some "SSE connection failed - max attempts reached" ∧
    (notifyAll "SSE connection failed - max attempts reached" twoErrSubs).1 =
      twoErrSubs.map (fun c => (c.id, "SSE connection failed - max attempts reached")) ∧
    (connect exhaustedManager).st = exhaustedManager ∧
    (connect exhaustedManager).attemptStarted = false ∧
    (connect exhaustedManager).errorNotified = some "Max reconnection attempts reached" ∧
    (disconnect exhaustedManager).st.reconnectAttempts = 0 ∧
    (connect (disconnect exhaustedManager).st).attemptStarted = true :=
  ceiling_terminal_until_disconnect exhaustedManager twoErrSubs
    (by decide) rfl (by decide)

/-- C4 counterexample: dispatching the heartbeat envelope whose data holds
only memory_usage_mb = 42 onto the initial store (queue_size 150,
server_status healthy) resets queue_size to 0 and server_status to unknown
instead of leaving them at their prior values. -/
theorem heartbeat_merge_counterexample :
    initialHook.state.metrics.queue_size = 150 ∧
    initialHook.state.metrics.server_status = "healthy" ∧
    (handleMessage 0 "i" heartbeatMemOnly initialHook).state.metrics.memory_usage_mb = 42 ∧
    (handleMessage 0 "i" heartbeatMemOnly initialHook).state.metrics.queue_size = 0 ∧
    (handleMessage 0 "i" heartbeatMemOnly initialHook).state.metrics.server_status =
      "unknown" := by
  refine ⟨rfl, rfl, ?_, ?_, ?_⟩ <;>
    norm_num [handleMessage, heartbeatMemOnly, updateMetrics, mergeMetrics,
      updatePerformanceHistory, jsNum, jsStr, hb_ne_conn]

/-- C4 (amended): the heartbeat dispatch builds a full metrics update,
filling every field absent from the envelope with its default (0 or
unknown), so dispatching the heartbeat carrying only memory_usage_mb = 42
overwrites all other metric fields with those defaults whatever their prior
values; only the store-level updateMetrics merge itself leaves fields absent
from its patch untouched. -/
theorem heartbeat_dispatch_defaults (now : ℚ) (iso : String) (hs : HookState) (m : ℚ) :
    (handleMessage now iso heartbeatMemOnly hs).state.metrics =
      { memory_usage_mb := 42, queue_size := 0, processing_delay_ms := 0
        server_status := "unknown", active_clients := 0, current_scenario := "unknown"
        uptime_seconds := 0, total_events_received := 0 } ∧
    (updateMetrics { memory_usage_mb := some m } hs).state.metrics =
      { hs.state.metrics with memory_usage_mb := m } := by
  constructor
  · norm_num [handleMessage, heartbeatMemOnly, updateMetrics, mergeMetrics,
      updatePerformanceHistory, jsNum, jsStr, hb_ne_conn]
  · simp [updateMetrics, mergeMetrics]

/-- C6 counterexample: a malformed frame arriving on the open transport is
dropped without appending any log entry: the log buffer stays empty instead
of receiving exactly one error-level entry (the parse error goes only to
the console), while the connection indeed stays open. -/
theorem malformed_payload_counterexample :
    (onMessageStep 0 "i" (.malformed "oops") openManager initialHook).2.state.logs = [] ∧
    (onMessageStep 0 "i" (.malformed "oops") openManager initialHook).2 = initialHook ∧
    (onMessageStep 0 "i" (.malformed "oops") openManager initialHook).1 = openManager :=
  ⟨rfl, rfl, rfl⟩

/-- C6 (amended): every malformed payload is caught and dropped: the hook
state (logs included, so no log entry is appended to the store; the parse
error goes only to the console) and the manager state come back entirely
unchanged, the connection is not closed, and the handler returns normally. -/
theorem malformed_payload_dropped (now : ℚ) (iso text : String)
    (mgr : ManagerState) (hs : HookState) :
    onMessageStep now iso (.malformed text) mgr hs = (mgr, hs) := rfl

/-- C8 counterexample: an orderbook_update with sequence_id 5 followed by
one with sequence_id 4: the second update is accepted into the store and the
stored sequence_id drops from 5 to 4, so a lower id is not rejected. -/
theorem sequence_id_counterexample :
    (handleMessage 0 "i" (obUpdate 5) initialHook).state.orderbook_data.sequence_id = 5 ∧
    (handleMessage 1 "i" (obUpdate 4)
        (handleMessage 0 "i" (obUpdate 5) initialHook)).state.orderbook_data.sequence_id
      = 4 := by
  constructor <;>
    norm_num [handleMessage, obUpdate, updateOrderbook, mergeOrderbook, addLog,
      jsNum, jsStr, jsBool, ob_ne_conn, ob_ne_hb]

/-- C8 (amended): the store applies every orderbook_update unconditionally
as a shallow merge with no sequence-id guard: after dispatching any
orderbook_update the stored sequence_id equals the (zero-defaulted) incoming
one regardless of the previously stored value, so it can decrease. -/
theorem orderbook_update_unconditional (now : ℚ) (iso : String) (m : SSEMessage)
    (hs : HookState) (hty : m.type = "orderbook_update") :
    (handleMessage now iso m hs).state.orderbook_data.sequence_id =
      jsNum m.data.sequence_id 0 := by
  unfold handleMessage
  rw [hty]
  norm_num [updateOrderbook, mergeOrderbook, addLog, ob_ne_conn, ob_ne_hb]

/-- C8 witness: the amended rule evaluated on the sequence-id-4 update. -/
theorem orderbook_update_unconditional_witness :
    (handleMessage 1 "i" (obUpdate 4) initialHook).state.orderbook_data.sequence_id =
      jsNum (obUpdate 4).data.sequence_id 0 :=
  orderbook_update_unconditional 1 "i" (obUpdate 4) initialHook rfl

/-- C10: an envelope of any type other than orderbook_update leaves the
arrival-timestamp list and the message counter unchanged, so the reported
events-per-second figure counts orderbook updates only. -/
theorem rate_counts_orderbook_only (now : ℚ) (iso : String) (m : SSEMessage)
    (hs : HookState) (hty : m.type ≠ "orderbook_update") :
    (handleMessage now iso m hs).messageTimestamps = hs.messageTimestamps ∧
    (handleMessage now iso m hs).messageCount = hs.messageCount := by
  unfold handleMessage
  constructor <;> (split_ifs <;>
    simp_all [addLog, updateMetrics, updatePerformanceHistory, addIncident, apply_ite])

theorem handleMessage_ob_freshness (now : ℚ) (iso : String) (m : SSEMessage)
    (hs : HookState) (hty : m.type = "orderbook_update") :
    (handleMessage now iso m hs).state.orderbook_data.is_stale = jsBool m.data.is_stale ∧
    (handleMessage now iso m hs).state.orderbook_data.data_age_ms =
      jsNum m.data.data_age_ms 0 := by
  unfold handleMessage
  rw [hty]
  norm_num [updateOrderbook, mergeOrderbook, addLog, ob_ne_conn, ob_ne_hb]

theorem processEnvelope_latched (now : ℚ) (iso : String) (m : SSEMessage) (sys : Sys)
    (h : sys.ui.isDisconnectedDueToStaleness = true) :
    processEnvelope now iso m sys =
      { sys with hook := handleMessage now iso m sys.hook } := by
  unfold processEnvelope stalenessEffect
  split_ifs with h1 h2
  all_goals first
    | rfl
    | simp_all

theorem processStream_latched (es : List TimedMsg) (sys : Sys)
    (h : sys.ui.isDisconnectedDueToStaleness = true) :
    (processStream es sys).disconnectCalls = sys.disconnectCalls ∧
    (processStream es sys).tripRecords = sys.tripRecords ∧
    (processStream es sys).ui = sys.ui := by
  induction es generalizing sys with
  | nil => exact ⟨rfl, rfl, rfl⟩
  | cons e es ih =>
      have hstep := processEnvelope_latched e.now e.nowIso e.msg sys h
      have hrun : processStream (e :: es) sys =
          processStream es (processEnvelope e.now e.nowIso e.msg sys) := rfl
      have hrec := ih (processEnvelope e.now e.nowIso e.msg sys) (by rw [hstep]; exact h)
      rw [hrun]
      refine ⟨hrec.1.trans ?_, hrec.2.1.trans ?_, hrec.2.2.trans ?_⟩ <;> rw [hstep]

theorem tripWorthy_iff (m : SSEMessage) :
    tripWorthy m = true ↔
      (m.type = "orderbook_update" ∧ jsBool m.data.is_stale = true ∧
        jsNum m.data.data_age_ms 0 > 300) := by
  simp [tripWorthy]

theorem processEnvelope_armed_trip (now : ℚ) (iso : String) (m : SSEMessage) (sys : Sys)
    (harm : sys.ui.isDisconnectedDueToStaleness = false)
    (hres : sys.ui.isResetting = false)
    (hty : m.type = "orderbook_update")
    (ht : tripWorthy m = true) :
    processEnvelope now iso m sys =
      { hook := handleMessage now iso m sys.hook
        ui := { sys.ui with
          isDisconnectedDueToStaleness := true
          stalenessDisconnectInfo := some (jsNum m.data.data_age_ms 0)
          stalenessAlertCount := 1 }
        manager := (disconnect sys.manager).st
        disconnectCalls := sys.disconnectCalls + 1
        tripRecords := sys.tripRecords ++ [jsNum m.data.data_age_ms 0] } := by
  obtain ⟨hf1, hf2⟩ := handleMessage_ob_freshness now iso m sys.hook hty
  obtain ⟨-, hstale, hage⟩ := (tripWorthy_iff m).mp ht
  unfold processEnvelope stalenessEffect
  split_ifs with h1 h2
  all_goals simp_all

theorem processEnvelope_armed_notrip (now : ℚ) (iso : String) (m : SSEMessage) (sys : Sys)
    (hty : m.type = "orderbook_update")
    (ht : tripWorthy m = false) :
    processEnvelope now iso m sys =
      { sys with hook := handleMessage now iso m sys.hook } := by
  obtain ⟨hf1, hf2⟩ := handleMessage_ob_freshness now iso m sys.hook hty
  unfold processEnvelope stalenessEffect
  split_ifs with h1 h2
  · rfl
  · exfalso
    obtain ⟨hstale, hage, -⟩ := h2
    have hB : jsBool m.data.is_stale = true := by rw [← hf1]; exact hstale
    have hA : jsNum m.data.data_age_ms 0 > 300 := by rw [← hf2]; exact hage
    have hT : tripWorthy m = true := (tripWorthy_iff m).mpr ⟨hty, hB, hA⟩
    rw [hT] at ht
    exact Bool.noConfusion ht
  · rfl

theorem processStream_armed (es : List TimedMsg) (sys : Sys)
    (harm : sys.ui.isDisconnectedDueToStaleness = false)
    (hres : sys.ui.isResetting = false)
    (hob : ∀ e ∈ es, e.msg.type = "orderbook_update") :
    (processStream es sys).disconnectCalls =
      sys.disconnectCalls + (if es.any (fun e => tripWorthy e.msg) then 1 else 0) ∧
    (processStream es sys).tripRecords.length =
      sys.tripRecords.length + (if es.any (fun e => tripWorthy e.msg) then 1 else 0) ∧
    (processStream es sys).ui.isDisconnectedDueToStaleness =
      es.any (fun e => tripWorthy e.msg) := by
  induction es generalizing sys with
  | nil => simp [processStream, harm]
  | cons e es ih =>
      have hty := hob e (List.mem_cons_self e es)
      have hrun : processStream (e :: es) sys =
          processStream es (processEnvelope e.now e.nowIso e.msg sys) := rfl
      by_cases ht : tripWorthy e.msg
      · have hstep := processEnvelope_armed_trip e.now e.nowIso e.msg sys harm hres hty ht
        obtain ⟨l1, l2, l3⟩ := processStream_latched es
          (processEnvelope e.now e.nowIso e.msg sys) (by rw [hstep])
        have hany : (e :: es).any (fun x => tripWorthy x.msg) = true := by simp [ht]
        rw [hrun]
        refine ⟨?_, ?_, ?_⟩
        · rw [l1, hstep, hany]; simp
        · rw [l2, hstep, hany]; simp
        · rw [l3, hstep, hany]
      · have hb : tripWorthy e.msg = false := by simpa using ht
        have hstep := processEnvelope_armed_notrip e.now e.nowIso e.msg sys hty hb
        obtain ⟨r1, r2, r3⟩ := ih (processEnvelope e.now e.nowIso e.msg sys)
          (by rw [hstep]; exact harm) (by rw [hstep]; exact hres)
          (fun x hx => hob x (List.mem_cons_of_mem e hx))
        rw [hrun]
        refine ⟨?_, ?_, ?_⟩
        · rw [r1, hstep]; simp [hb]
        · rw [r2, hstep]; simp [hb]
        · rw [r3]; simp [hb]

/-- C1: the staleness circuit breaker is edge-triggered and latched: for
every stream of orderbook_update envelopes processed from an armed detector,
once an envelope with is_stale true and data age above the critical
threshold is processed, disconnect() of the manager is invoked exactly once
and exactly one critical incident is recorded for the episode; any further
envelopes fed while tripped cause no further disconnects or records, and
only the explicit external reset re-arms the detector, after which a new
staleness episode again trips exactly once. -/
theorem staleness_breaker_once (es es2 : List TimedMsg) (sys : Sys)
    (harm : sys.ui.isDisconnectedDueToStaleness = false)
    (hres : sys.ui.isResetting = false)
    (hob : ∀ e ∈ es, e.msg.type = "orderbook_update")
    (hob2 : ∀ e ∈ es2, e.msg.type = "orderbook_update")
    (htrip : es.any (fun e => tripWorthy e.msg) = true) :
    (processStream es sys).disconnectCalls = sys.disconnectCalls + 1 ∧
    (processStream es sys).tripRecords.length = sys.tripRecords.length + 1 ∧
    (processStream es2 (processStream es sys)).disconnectCalls =
      sys.disconnectCalls + 1 ∧
    (processStream es2 (processStream es sys)).tripRecords.length =
      sys.tripRecords.length + 1 ∧
    (processStream es2 (externalReset (processStream es sys))).disconnectCalls =
      sys.disconnectCalls + 1 +
        (if es2.any (fun e => tripWorthy e.msg) then 1 else 0) := by
  obtain ⟨hd, htr, hl⟩ := processStream_armed es sys harm hres hob
  simp only [htrip, if_true] at hd htr hl
  have hlat := processStream_latched es2 (processStream es sys) hl
  obtain ⟨rd, rt, -⟩ := processStream_armed es2 (externalReset (processStream es sys))
    rfl rfl hob2
  refine ⟨hd, htr, hlat.1.trans hd, ?_, ?_⟩
  · rw [hlat.2.1]; exact htr
  · rw [rd, show (externalReset (processStream es sys)).disconnectCalls =
      (processStream es sys).disconnectCalls from rfl, hd]

/-- C1 witness: two consecutive critical stale updates (age 1200 ms) trip
the breaker exactly once; a further stale update while tripped changes
nothing; after the external reset the next staleness episode trips exactly
once more. -/
theorem staleness_breaker_once_witness :
    (processStream staleTwice armedSys).disconnectCalls = armedSys.disconnectCalls + 1 ∧
    (processStream staleTwice armedSys).tripRecords.length =
      armedSys.tripRecords.length + 1 ∧
    (processStream staleAgain (processStream staleTwice armedSys)).disconnectCalls =
      armedSys.disconnectCalls + 1 ∧
    (processStream staleAgain (processStream staleTwice armedSys)).tripRecords.length =
      armedSys.tripRecords.length + 1 ∧
    (processStream staleAgain
        (externalReset (processStream staleTwice armedSys))).disconnectCalls =
      armedSys.disconnectCalls + 1 +
        (if staleAgain.any (fun e => tripWorthy e.msg) then 1 else 0) :=
  staleness_breaker_once staleTwice staleAgain armedSys rfl rfl
    (by simp [staleTwice, staleUpdate])
    (by simp [staleAgain, staleUpdate])
    (by norm_num [staleTwice, staleUpdate, tripWorthy, jsBool, jsNum])

/-- C10 witness: a keepalive envelope feeds nothing into the estimator. -/
theorem rate_counts_orderbook_only_witness :
    (handleMessage 0 "i" keepaliveMsg initialHook).messageTimestamps =
      initialHook.messageTimestamps ∧
    (handleMessage 0 "i" keepaliveMsg initialHook).messageCount =
      initialHook.messageCount :=
  rate_counts_orderbook_only 0 "i" keepaliveMsg initialHook (by decide)

end MarketClient
